import Mathlib

/-!
# Verification of `toeplitzlda/usup_replay/llp.py`

Shallow embedding over exact rationals of the shrinkage covariance estimator
(`shrinkage`, llp.py lines 10-55) and the `LearningFromLabelProportions`
classifier (llp.py lines 58-166), together with proofs and refutations of the
specified properties.

External collaborators (sklearn's `StandardScaler` and the `blockmatrix`
package's `SpatioTemporalMatrix`) are not part of this repository; following
the specification they are modelled as supplied data (`ScalerResult`,
`STMOps`) constrained by the contracts the specification states for them.
-/

namespace ToeplitzLLP

open Matrix

/-! ## Definitions: the shrinkage estimator (llp.py lines 10-55) -/

/-- Vectors of length `p` over the rationals (numpy 1-D arrays). -/
abbrev Vec (p : ℕ) := Fin p → ℚ

/-- Rational `m × n` matrices (numpy 2-D arrays). -/
abbrev Mat (m n : ℕ) := Matrix (Fin m) (Fin n) ℚ

/-- Ratio matrices, of shape 2 × 2. -/
abbrev RMat := Matrix (Fin 2) (Fin 2) ℚ

/-- Embedding of `np.mean(X, axis=1)` at row `i`: the mean of feature `i`
across the `n` samples. -/
def featureMean (n : ℕ) (X : Mat p n) (i : Fin p) : ℚ := (∑ j, X i j) / n

/-- Population variance of feature `i` across samples (numpy `std(..., ddof=0)`
squared). -/
def featureVar (n : ℕ) (X : Mat p n) (i : Fin p) : ℚ :=
  (∑ j, (X i j - featureMean n X i) ^ 2) / n

/-- Output of the external `StandardScaler` collaborator on a `p × n`
feature-by-sample matrix: the standardized matrix (`sc.fit_transform(X.T).T`)
and the per-feature scale vector `sc.scale_`. -/
structure ScalerResult (p n : ℕ) where
  transformed : Mat p n
  scale : Vec p

/-- Modelled from the spec: the contract of the external Standardizer
(sklearn `StandardScaler`, spec section 6): it z-scores each feature across
samples and exposes the per-feature scale (the population standard deviation,
replaced by 1 for constant features, as sklearn does). -/
def IsStandardizer (X : Mat p n) (sc : ScalerResult p n) : Prop :=
  ∀ i, 0 < sc.scale i ∧
    (sc.scale i ^ 2 = featureVar n X i ∨ (featureVar n X i = 0 ∧ sc.scale i = 1)) ∧
    ∀ j, sc.transformed i j = (X i j - featureMean n X i) / sc.scale i

/-- Extends a length-`p` scale vector to all of `ℕ` (out-of-range reads as 0),
so that the numpy reshape/tile index arithmetic can be written directly. -/
def extendScale (scale : Vec p) : ℕ → ℚ :=
  fun m => if h : m < p then scale ⟨m, h⟩ else 0

/-- llp.py lines 36-37: `np.mean(np.reshape(sc.scale_, (n_channels, n_times)), axis=1)`
at channel `c` — the channel-major grid cell `(c, t)` is flat index `c * n_times + t`. -/
def blockVars (scale : ℕ → ℚ) (n_times c : ℕ) : ℚ :=
  (∑ t ∈ Finset.range n_times, scale (c * n_times + t)) / n_times

/-- llp.py line 38: `np.tile(block_vars, n_times)` at flat index `k`:
tiling a length-`n_channels` vector repeats it whole, so entry `k` reads
`block_vars[k % n_channels]`. -/
def tiledScale (scale : ℕ → ℚ) (n_channels n_times k : ℕ) : ℚ :=
  blockVars scale n_times (k % n_channels)

/-- llp.py lines 45-50: clamp the shrinkage intensity to `[0, 1]`
(`if gamma > 1: gamma = 1 elif gamma < 0: gamma = 0`). -/
def clamp01 (g : ℚ) : ℚ := if 1 < g then 1 else if g < 0 then 0 else g

/-- Embedding of `shrinkage` (llp.py lines 10-55) over exact rationals.
The standardization step is the external `StandardScaler` collaborator; its
output is the `sc` argument (used only when `standardize` is true).
All numpy expressions are translated entrywise:
scatter `S = Xn @ Xn.T`, default target `T = nu * I`,
`V = 1/(n-1) * (Xn2 @ Xn2.T - S**2 / n)`,
auto `gamma = n * sum(V) / sum((S - T)**2)`, the clamp, the convex
combination, and the final inverse rescaling `scale[j] * Cstar[i,j] * scale[i]`.
Rational division is total (a zero denominator yields 0), so the IEEE
degenerate outcomes of the auto-gamma quotient and the reshape-dimension
error of line 36 are refined separately by `shrinkageGammaFloat` below. -/
def shrinkage (p n : ℕ) (X : Mat p n) (gammaOpt : Option ℚ)
    (TOpt SOpt : Option (Mat p p)) (block : Bool) (n_channels n_times : ℕ)
    (standardize : Bool) (sc : ScalerResult p n) : Mat p p × ℚ :=
  let X1 : Mat p n := if standardize then sc.transformed else X
  let Xn : Mat p n := fun i j => X1 i j - featureMean n X1 i
  let S : Mat p p := SOpt.getD (fun i j => ∑ k, Xn i k * Xn j k)
  let Xn2 : Mat p n := fun i j => Xn i j ^ 2
  let nu : ℚ := (∑ i, S i i) / p
  let T : Mat p p := TOpt.getD (fun i j => if i = j then nu else 0)
  let scaleUsed : Vec p :=
    if block && standardize then
      fun k => tiledScale (extendScale sc.scale) n_channels n_times k.val
    else sc.scale
  let V : Mat p p := fun i j => 1 / ((n : ℚ) - 1) * ((∑ k, Xn2 i k * Xn2 j k) - S i j ^ 2 / n)
  let gamma0 : ℚ := gammaOpt.getD ((n : ℚ) * (∑ i, ∑ j, V i j) / (∑ i, ∑ j, (S i j - T i j) ^ 2))
  let gamma : ℚ := clamp01 gamma0
  let Cstar : Mat p p := fun i j => (gamma * T i j + (1 - gamma) * S i j) / ((n : ℚ) - 1)
  let CstarOut : Mat p p :=
    if standardize then fun i j => scaleUsed j * Cstar i j * scaleUsed i else Cstar
  (CstarOut, gamma)

/-- The scatter matrix actually used by `shrinkage` (llp.py lines 23-28):
the supplied `S`, or the outer product of the centered (standardized) data. -/
def shrinkS (p n : ℕ) (X : Mat p n) (SOpt : Option (Mat p p))
    (standardize : Bool) (sc : ScalerResult p n) : Mat p p :=
  let X1 : Mat p n := if standardize then sc.transformed else X
  let Xn : Mat p n := fun i j => X1 i j - featureMean n X1 i
  SOpt.getD (fun i j => ∑ k, Xn i k * Xn j k)

/-- The target matrix actually used by `shrinkage` (llp.py lines 32-34):
the supplied `T`, or `nu` times the identity. -/
def shrinkT (p n : ℕ) (X : Mat p n) (TOpt SOpt : Option (Mat p p))
    (standardize : Bool) (sc : ScalerResult p n) : Mat p p :=
  let S := shrinkS p n X SOpt standardize sc
  TOpt.getD (fun i j => if i = j then (∑ i, S i i) / p else 0)

/-- The numerator `n * np.sum(V)` of the auto-gamma formula (llp.py lines
42-44), with `V = 1/(n-1) * (Xn2 @ Xn2.T - S**2 / n)`. -/
def shrinkNum (p n : ℕ) (X : Mat p n) (SOpt : Option (Mat p p))
    (standardize : Bool) (sc : ScalerResult p n) : ℚ :=
  let X1 : Mat p n := if standardize then sc.transformed else X
  let Xn : Mat p n := fun i j => X1 i j - featureMean n X1 i
  let S := shrinkS p n X SOpt standardize sc
  let Xn2 : Mat p n := fun i j => Xn i j ^ 2
  (n : ℚ) * (∑ i, ∑ j, 1 / ((n : ℚ) - 1) * ((∑ k, Xn2 i k * Xn2 j k) - S i j ^ 2 / n))

/-- The denominator `np.sum(np.square(S - T))` of the auto-gamma formula
(llp.py line 44). -/
def shrinkDen (p n : ℕ) (X : Mat p n) (TOpt SOpt : Option (Mat p p))
    (standardize : Bool) (sc : ScalerResult p n) : ℚ :=
  ∑ i, ∑ j, (shrinkS p n X SOpt standardize sc i j -
    shrinkT p n X TOpt SOpt standardize sc i j) ^ 2

/-- Outcome of the gamma computation of one `shrinkage` call under IEEE
float semantics, refining the exact-rational model `shrinkage` (whose total
division sends a zero denominator to 0):
`val g` — the call returns the finite gamma `g` (after the clamp);
`nan` — the auto-gamma quotient is `0.0/0.0 = NaN` (llp.py line 44), both
clamp comparisons of lines 45-50 are false on NaN, and the call returns NaN;
`reshapeError` — `block` and `standardize` with `p ≠ n_channels * n_times`
makes the `np.reshape` of llp.py line 36 raise a `ValueError` before any
gamma is computed. -/
inductive GammaOutcome where
  | val (g : ℚ)
  | nan
  | reshapeError
deriving DecidableEq

/-- The gamma actually returned by `shrinkage` (llp.py lines 21-50) under
IEEE float semantics. The reshape of line 36 (reached exactly when `block`
and `standardize`) raises if `p ≠ n_channels * n_times`. A supplied gamma is
clamped. An auto gamma with nonzero denominator is the finite quotient,
clamped. A zero denominator gives `inf` (numerator positive, clamped to 1),
`-inf` (numerator negative, clamped to 0), or `NaN` (numerator zero, which
escapes the clamp and is returned). -/
def shrinkageGammaFloat (p n : ℕ) (X : Mat p n) (gammaOpt : Option ℚ)
    (TOpt SOpt : Option (Mat p p)) (block : Bool) (n_channels n_times : ℕ)
    (standardize : Bool) (sc : ScalerResult p n) : GammaOutcome :=
  if (block && standardize) = true ∧ p ≠ n_channels * n_times then .reshapeError
  else
    match gammaOpt with
    | some g => .val (clamp01 g)
    | none =>
        let num := shrinkNum p n X SOpt standardize sc
        let den := shrinkDen p n X TOpt SOpt standardize sc
        if den = 0 then
          if num = 0 then .nan
          else if 0 < num then .val 1
          else .val 0
        else .val (clamp01 (num / den))

/-! ## Definitions: the classifier (llp.py lines 58-166) -/

/-- Python exceptions observable from the classifier:
reading a never-assigned attribute, `np.linalg` failures, and the `TypeError`
from arithmetic on `None`. -/
inductive PyError where
  | attrError
  | linalgError
  | typeError
deriving DecidableEq

/-- Constructor options of `LearningFromLabelProportions.__init__`
(llp.py lines 76-84), with the source's default values. Taper specifications
are opaque data handed to the external regularizer. -/
structure LLPConfig where
  toeplitz_time : Bool := false
  taper_time : Option ℚ := none
  toeplitz_spatial : Bool := false
  taper_spatial : Option ℚ := none
  n_times : Option ℕ := none
  n_channels : ℕ := 31

/-- Instance attributes of a `LearningFromLabelProportions` object, with the
model fields (`w`, `b`, `mu_T`, `mu_NT`) as `Option`s: `none` is Python's
`None` (the Unfitted state). `p` is the flattened feature dimension. -/
structure LLPState (p : ℕ) where
  ratio_matrix : RMat
  pinv_ratio_matrix : RMat
  w : Option (Vec p)
  b : Option ℚ
  mu_T : Option (Vec p)
  mu_NT : Option (Vec p)
  cfg : LLPConfig

/-- Determinant of a 2 × 2 matrix. -/
def det2 (A : RMat) : ℚ := A 0 0 * A 1 1 - A 0 1 * A 1 0

/-- Embedding of `np.linalg.inv` on an invertible 2 × 2 matrix (the adjugate
over the determinant). -/
def inv2 (A : RMat) : RMat :=
  Matrix.of ![![A 1 1 / det2 A, -(A 0 1) / det2 A],
              ![-(A 1 0) / det2 A, A 0 0 / det2 A]]

/-- Default ratio matrix `[[3/8, 5/8], [2/18, 16/18]]` (llp.py line 87). -/
def defaultRatioMatrix : RMat := Matrix.of ![![3/8, 5/8], ![2/18, 16/18]]

/-- Embedding of `__init__` (llp.py lines 76-101). `self.ratio_matrix` is
assigned ONLY in the `ratio_matrix is None` branch (lines 86-87); when a matrix
is passed explicitly, line 88 reads the never-assigned attribute and raises
`AttributeError`. On the default path, `np.linalg.inv` raises `LinAlgError`
if the matrix were singular, and all four model fields start as `None`. -/
def llpInit (p : ℕ) (ratio_matrix : Option RMat) (cfg : LLPConfig) :
    Except PyError (LLPState p) :=
  match ratio_matrix with
  | some _ => .error .attrError
  | none =>
      if det2 defaultRatioMatrix = 0 then .error .linalgError
      else .ok { ratio_matrix := defaultRatioMatrix,
                 pinv_ratio_matrix := inv2 defaultRatioMatrix,
                 w := none, b := none, mu_T := none, mu_NT := none, cfg := cfg }

/-- The state produced by a successful default construction: the Unfitted
classifier (all four model fields `None`). -/
def freshState (p : ℕ) (cfg : LLPConfig) : LLPState p :=
  { ratio_matrix := defaultRatioMatrix,
    pinv_ratio_matrix := inv2 defaultRatioMatrix,
    w := none, b := none, mu_T := none, mu_NT := none, cfg := cfg }

/-- Modelled from the spec: the external SpatioTemporalMatrix collaborator
(`blockmatrix` package, spec section 4.2) — `force_toeplitz_offdiagonals`
(with its `raise_spatial` flag), `taper_offdiagonals`, and `swap_primeness`,
each a pure transform of a square covariance matrix. -/
structure STMOps (p : ℕ) where
  force_toeplitz : Bool → Mat p p → Mat p p
  taper : ℚ → Mat p p → Mat p p
  swap : Mat p p → Mat p p

/-- The regularization protocol of `fit` (llp.py lines 124-133), in source
order: time-block Toeplitz forcing and tapering if configured, one primeness
swap, spatial-block Toeplitz forcing (`raise_spatial=False`) and tapering if
configured, and the swap back. -/
def applySTM (cfg : LLPConfig) (ops : STMOps p) (C : Mat p p) : Mat p p :=
  let C1 := if cfg.toeplitz_time then ops.force_toeplitz true C else C
  let C2 := match cfg.taper_time with | some t => ops.taper t C1 | none => C1
  let C3 := ops.swap C2
  let C4 := if cfg.toeplitz_spatial then ops.force_toeplitz false C3 else C3
  let C5 := match cfg.taper_spatial with | some t => ops.taper t C4 | none => C4
  ops.swap C5

/-- Embedding of `X.reshape(X.shape[0], -1)` on one trial: row-major
(channel-major) flattening of a channels-by-times trial, flat index
`c * nt + t`. -/
def flattenTrial (x : Matrix (Fin nc) (Fin nt) ℚ) : Vec (nc * nt) := fun k =>
  have hnt : 0 < nt := by
    rcases Nat.eq_zero_or_pos nt with h0 | h0
    · exact absurd k.isLt (by simp [h0])
    · exact h0
  x ⟨k.val / nt, Nat.div_lt_of_lt_mul (Nat.mul_comm nc nt ▸ k.isLt)⟩
    ⟨k.val % nt, Nat.mod_lt _ hnt⟩

/-- Embedding of `np.mean(X[np.where(y == v)], axis=0)` at feature `k`: the
mean feature vector of the pool of trials labeled `v` (llp.py lines 113-114,
138-139). -/
def poolMean (Xf : Matrix (Fin ns) (Fin p) ℚ) (y : Fin ns → ℤ) (v : ℤ) : Vec p :=
  fun k => (∑ i ∈ Finset.univ.filter (fun i => y i = v), Xf i k) /
    (((Finset.univ.filter (fun i => y i = v)).card : ℚ))

/-- Unmixing row 0 (llp.py lines 141-143): `mu_T` from the two pool means. -/
def fitMuT (P : RMat) (a1 a2 : Vec p) : Vec p :=
  fun k => P 0 0 * a1 k + P 0 1 * a2 k

/-- Unmixing row 1 (llp.py lines 144-146): `mu_NT` from the two pool means. -/
def fitMuNT (P : RMat) (a1 a2 : Vec p) : Vec p :=
  fun k => P 1 0 * a1 k + P 1 1 * a2 k

/-- Embedding of `C_diff = mu_T - mu_NT` (llp.py line 149). -/
def fitDiff (P : RMat) (a1 a2 : Vec p) : Vec p :=
  fun k => fitMuT P a1 a2 k - fitMuNT P a1 a2 k

/-- Embedding of `C_mean = 0.5 * (mu_T + mu_NT)` (llp.py line 150). -/
def fitMean (P : RMat) (a1 a2 : Vec p) : Vec p :=
  fun k => (1 / 2 : ℚ) * (fitMuT P a1 a2 k + fitMuNT P a1 a2 k)

/-- Embedding of `np.linalg.solve(A, d)`: the unique solution `A⁻¹ d` when
`A` is invertible (via the adjugate), a raised `LinAlgError` (`none`) when
`A` is singular. -/
def npSolve (A : Matrix (Fin p) (Fin p) ℚ) (d : Vec p) : Option (Vec p) :=
  if A.det = 0 then none else some (fun i => A.det⁻¹ * (A.adjugate.mulVec d) i)

/-- Embedding of `C_w = 2 * C_w / np.dot(C_w.T, C_diff)` (llp.py line 153),
applied to the raw solve output `w0`. -/
def fitW (P : RMat) (a1 a2 w0 : Vec p) : Vec p :=
  fun k => 2 * w0 k / (w0 ⬝ᵥ fitDiff P a1 a2)

/-- Embedding of `C_b = np.dot(-C_w.T, C_mean)` (llp.py line 154). -/
def fitB (P : RMat) (a1 a2 w0 : Vec p) : ℚ :=
  -(fitW P a1 a2 w0 ⬝ᵥ fitMean P a1 a2)

/-- The covariance used by `fit` (llp.py lines 121-135): `shrinkage(X.T)`
with every other argument left at its default (`gamma=None`, `T=None`,
`S=None`, `block=False`, `n_channels=31`, `n_times=5`, `standardize=True`),
then the regularization protocol. -/
def fitCov (cfg : LLPConfig) (ops : STMOps p) (sc : ScalerResult p ns)
    (Xf : Matrix (Fin ns) (Fin p) ℚ) : Mat p p :=
  applySTM cfg ops (shrinkage p ns Xfᵀ none none none false 31 5 true sc).1

/-- Embedding of `average_O1 = np.mean(X1, axis=0)` (llp.py line 138): the
mean flattened feature vector over the trials labeled 1. -/
def average_O1 (X : Fin ns → Matrix (Fin nc) (Fin nt) ℚ) (y : Fin ns → ℤ) :
    Vec (nc * nt) :=
  poolMean (fun i => flattenTrial (X i)) y 1

/-- Embedding of `average_O2 = np.mean(X2, axis=0)` (llp.py line 139): the
mean flattened feature vector over the trials labeled 2. -/
def average_O2 (X : Fin ns → Matrix (Fin nc) (Fin nt) ℚ) (y : Fin ns → ℤ) :
    Vec (nc * nt) :=
  poolMean (fun i => flattenTrial (X i)) y 2

/-- Embedding of `fit` (llp.py lines 103-162): flatten the trials, select the
two sequence pools, compute the regularized pooled covariance, unmix the pool
means through `pinv_ratio_matrix`, solve for the discriminant, normalize, and
assign all four model fields. The only fallible step is the linear solve
(line 152), which precedes every assignment (lines 156-160), so a failing fit
returns an error and produces no new state. -/
def fitStep (st : LLPState (nc * nt)) (ops : STMOps (nc * nt))
    (sc : ScalerResult (nc * nt) ns) (X : Fin ns → Matrix (Fin nc) (Fin nt) ℚ)
    (y : Fin ns → ℤ) : Except PyError (LLPState (nc * nt)) :=
  let Xf : Matrix (Fin ns) (Fin (nc * nt)) ℚ := fun i => flattenTrial (X i)
  let a1 := average_O1 X y
  let a2 := average_O2 X y
  let P := st.pinv_ratio_matrix
  match npSolve (fitCov st.cfg ops sc Xf) (fitDiff P a1 a2) with
  | none => .error .linalgError
  | some w0 =>
      .ok { st with
            w := some (fitW P a1 a2 w0),
            b := some (fitB P a1 a2 w0),
            mu_T := some (fitMuT P a1 a2),
            mu_NT := some (fitMuNT P a1 a2) }

/-- Embedding of `predict` (llp.py lines 164-166): flatten each trial and
return `X @ w + b`. When `fit` has never been called, `self.w` and `self.b`
are `None` and `np.dot(X, None) + None` raises a `TypeError`. -/
def predict (st : LLPState (nc * nt)) (X : Fin ns → Matrix (Fin nc) (Fin nt) ℚ) :
    Except PyError (Fin ns → ℚ) :=
  match st.w, st.b with
  | some w, some b => .ok (fun i => flattenTrial (X i) ⬝ᵥ w + b)
  | _, _ => .error .typeError

/-- The all-or-nothing model-state invariant: the four model fields are
either all present (Fitted) or all `None` (Unfitted). -/
def ModelConsistent (st : LLPState p) : Prop :=
  (st.w.isSome ∧ st.b.isSome ∧ st.mu_T.isSome ∧ st.mu_NT.isSome) ∨
  (st.w = none ∧ st.b = none ∧ st.mu_T = none ∧ st.mu_NT = none)

/-- States observable over a classifier's lifetime: those produced by a
successful construction, followed by any number of successful `fit` calls
(a failing construction or `fit` raises and yields no state). -/
inductive Reachable (nc nt : ℕ) : LLPState (nc * nt) → Prop where
  | of_init (rm : Option RMat) (cfg : LLPConfig) (st : LLPState (nc * nt)) :
      llpInit (nc * nt) rm cfg = .ok st → Reachable nc nt st
  | of_fit (ns : ℕ) (st st' : LLPState (nc * nt)) (ops : STMOps (nc * nt))
      (sc : ScalerResult (nc * nt) ns) (X : Fin ns → Matrix (Fin nc) (Fin nt) ℚ)
      (y : Fin ns → ℤ) : Reachable nc nt st →
      fitStep st ops sc X y = .ok st' → Reachable nc nt st'

/-! ## Definitions: concrete instances used by witnesses and counterexamples -/

/-- Concrete scaler used by witness instantiations: one feature, two samples. -/
def scW : ScalerResult 1 2 := ⟨Matrix.of ![![-1, 1]], ![1]⟩

/-- Concrete input matrix for witness instantiations. -/
def matW : Mat 1 2 := Matrix.of ![![0, 4]]

/-- Scaler for the C6 counterexample: the genuine standardizer output for
`matW = [[0, 4]]` (mean 2, population standard deviation 2). -/
def scC6 : ScalerResult 1 2 := ⟨Matrix.of ![![-1, 1]], ![2]⟩

/-- Target matrix for the C6 counterexample. -/
def TC6 : Mat 1 1 := Matrix.of ![![1]]

/-- Supplied scatter matrix for the C6 counterexample. -/
def SC6 : Mat 1 1 := Matrix.of ![![0]]

/-- Scaler exhibiting the tile/repeat mismatch: 2 channels, 2 time points,
per-feature scales `[1, 3, 5, 7]` in channel-major layout. -/
def scC2 : ScalerResult 4 2 := ⟨0, ![1, 3, 5, 7]⟩

/-- Standardizer output for the all-zero matrix `[[0, 0]]`: both features
constant, so sklearn replaces the zero standard deviation by scale 1 and the
transformed data is zero. -/
def scNan : ScalerResult 1 2 := ⟨0, ![1]⟩

/-- Identity spatiotemporal operations: a valid instance of the external
regularizer interface (its `swap_primeness` is self-inverse). -/
def ops1 : STMOps 1 := ⟨fun _ C => C, fun _ C => C, fun C => C⟩

/-- A classifier state with identity unmixing matrix and default options. -/
def st1 : LLPState 1 :=
  { ratio_matrix := 1, pinv_ratio_matrix := 1, w := none, b := none,
    mu_T := none, mu_NT := none, cfg := {} }

/-- Standardizer output for three one-feature samples: standardized values
`(-1, 0, 1)`, scale 1. -/
def sc3 : ScalerResult 1 3 := ⟨Matrix.of ![![-1, 0, 1]], ![1]⟩

/-- Three one-channel, one-time trials with values 4, 0, 7. -/
def X3 : Fin 3 → Matrix (Fin 1) (Fin 1) ℚ := ![fun _ _ => 4, fun _ _ => 0, fun _ _ => 7]

/-- Labels `[1, 2, 2]` (all in the legal label set). -/
def yA : Fin 3 → ℤ := ![1, 2, 2]

/-- Labels `[1, 2, 3]` — the third trial carries the illegal label 3. -/
def yB : Fin 3 → ℤ := ![1, 2, 3]

/-- Labels `[1, 2, 5]` — agrees with `yB` on which trials are labeled 1 or 2. -/
def yB' : Fin 3 → ℤ := ![1, 2, 5]

/-- The raw solve output for the fit of `X3` with labels `yA`. -/
def w0A : Vec 1 := fun _ => 1 / 2

/-- The raw solve output for the fit of `X3` with labels `yB`. -/
def w0B : Vec 1 := fun _ => 4

/-- The state after a successful fit of `X3` with labels `yA` from `st1`. -/
def stA : LLPState 1 :=
  { st1 with
    w := some (fitW st1.pinv_ratio_matrix (average_O1 X3 yA) (average_O2 X3 yA) w0A),
    b := some (fitB st1.pinv_ratio_matrix (average_O1 X3 yA) (average_O2 X3 yA) w0A),
    mu_T := some (fitMuT st1.pinv_ratio_matrix (average_O1 X3 yA) (average_O2 X3 yA)),
    mu_NT := some (fitMuNT st1.pinv_ratio_matrix (average_O1 X3 yA) (average_O2 X3 yA)) }

/-! ## Helper lemmas -/

theorem clamp01_nonneg (g : ℚ) : 0 ≤ clamp01 g := by
  unfold clamp01; split_ifs <;> linarith

theorem clamp01_le_one (g : ℚ) : clamp01 g ≤ 1 := by
  unfold clamp01; split_ifs <;> linarith

/-- Default construction succeeds (the default ratio matrix has determinant
`38/144 ≠ 0`) and yields the Unfitted state. -/
theorem llpInit_none_ok (p : ℕ) (cfg : LLPConfig) :
    llpInit p none cfg = .ok (freshState p cfg) := by
  simp only [llpInit, freshState]
  norm_num [det2, defaultRatioMatrix]

theorem dot_fitW_diff {p : ℕ} (P : RMat) (a1 a2 w0 : Vec p)
    (hnz : w0 ⬝ᵥ fitDiff P a1 a2 ≠ 0) :
    fitW P a1 a2 w0 ⬝ᵥ fitDiff P a1 a2 = 2 := by
  simp only [fitW, Matrix.dotProduct] at hnz ⊢
  have step : ∀ k ∈ Finset.univ,
      2 * w0 k / (∑ i, w0 i * fitDiff P a1 a2 i) * fitDiff P a1 a2 k =
        w0 k * fitDiff P a1 a2 k * (2 / (∑ i, w0 i * fitDiff P a1 a2 i)) := by
    intro k _
    ring
  rw [Finset.sum_congr rfl step, ← Finset.sum_mul]
  field_simp

theorem dot_shift_to_diff {p : ℕ} (w u v : Vec p) :
    w ⬝ᵥ u + -(w ⬝ᵥ fun k => (1 / 2 : ℚ) * (u k + v k)) =
      (1 / 2) * (w ⬝ᵥ fun k => u k - v k) := by
  simp only [Matrix.dotProduct, ← sub_eq_add_neg, ← Finset.sum_sub_distrib,
    Finset.mul_sum]
  exact Finset.sum_congr rfl fun k _ => by ring

theorem dot_shift_to_diff_snd {p : ℕ} (w u v : Vec p) :
    w ⬝ᵥ v + -(w ⬝ᵥ fun k => (1 / 2 : ℚ) * (u k + v k)) =
      -((1 / 2) * (w ⬝ᵥ fun k => u k - v k)) := by
  have h := dot_shift_to_diff w u v
  have hsum : w ⬝ᵥ u + w ⬝ᵥ v = 2 * (w ⬝ᵥ fun k => (1 / 2 : ℚ) * (u k + v k)) := by
    simp only [Matrix.dotProduct, Finset.mul_sum, ← Finset.sum_add_distrib]
    exact Finset.sum_congr rfl fun k _ => by ring
  linarith [h, hsum]

theorem npSolve_dim_one (A : Mat 1 1) (d : Vec 1) (h : A 0 0 ≠ 0) :
    npSolve A d = some fun i => (A 0 0)⁻¹ * d i := by
  simp [npSolve, Matrix.det_fin_one, Matrix.adjugate_fin_one, Matrix.one_mulVec, h]

theorem cov3_eval : fitCov st1.cfg ops1 sc3 (fun i => flattenTrial (X3 i)) = fun i j => 1 := by
  funext i j
  fin_cases i
  fin_cases j
  show (shrinkage 1 3 (fun i => flattenTrial (X3 i))ᵀ none none none false 31 5 true sc3).1 0 0 = 1
  norm_num [shrinkage, clamp01, sc3, featureMean, Fin.sum_univ_three]

theorem aO1_yA : average_O1 X3 yA = fun _ => 4 := by
  funext k
  show poolMean (fun i => flattenTrial (X3 i)) yA 1 k = 4
  rw [poolMean]
  rw [show Finset.univ.filter (fun i => yA i = 1) = ({0} : Finset (Fin 3)) by decide]
  norm_num [X3, flattenTrial]

theorem aO2_yA : average_O2 X3 yA = fun _ => 7 / 2 := by
  funext k
  show poolMean (fun i => flattenTrial (X3 i)) yA 2 k = 7 / 2
  rw [poolMean]
  rw [show Finset.univ.filter (fun i => yA i = 2) = ({1, 2} : Finset (Fin 3)) by decide]
  norm_num [X3, flattenTrial, show (({1, 2} : Finset (Fin 3)).card) = 2 from by decide]

theorem diff_yA :
    fitDiff st1.pinv_ratio_matrix (average_O1 X3 yA) (average_O2 X3 yA) = fun _ => 1 / 2 := by
  rw [aO1_yA, aO2_yA]
  funext k
  norm_num [fitDiff, fitMuT, fitMuNT, st1, Matrix.one_apply]

theorem solve_yA :
    npSolve (fitCov st1.cfg ops1 sc3 (fun i => flattenTrial (X3 i)))
      (fitDiff st1.pinv_ratio_matrix (average_O1 X3 yA) (average_O2 X3 yA)) = some w0A := by
  rw [cov3_eval, diff_yA, npSolve_dim_one _ _ (by norm_num)]
  congr 1
  funext i
  norm_num [w0A]

theorem nz_yA :
    w0A ⬝ᵥ fitDiff st1.pinv_ratio_matrix (average_O1 X3 yA) (average_O2 X3 yA) ≠ 0 := by
  rw [diff_yA]
  show (w0A ⬝ᵥ fun _ : Fin 1 => (1 / 2 : ℚ)) ≠ 0
  norm_num [Matrix.dotProduct, w0A, Fin.sum_univ_one]

theorem fit_yA : fitStep st1 ops1 sc3 X3 yA = .ok stA := by
  simp only [fitStep]
  rw [solve_yA]
  rfl

theorem aO1_yB : average_O1 X3 yB = fun _ => 4 := by
  funext k
  show poolMean (fun i => flattenTrial (X3 i)) yB 1 k = 4
  rw [poolMean]
  rw [show Finset.univ.filter (fun i => yB i = 1) = ({0} : Finset (Fin 3)) by decide]
  norm_num [X3, flattenTrial]

theorem aO2_yB : average_O2 X3 yB = fun _ => 0 := by
  funext k
  show poolMean (fun i => flattenTrial (X3 i)) yB 2 k = 0
  rw [poolMean]
  rw [show Finset.univ.filter (fun i => yB i = 2) = ({1} : Finset (Fin 3)) by decide]
  norm_num [X3, flattenTrial]

theorem diff_yB :
    fitDiff st1.pinv_ratio_matrix (average_O1 X3 yB) (average_O2 X3 yB) = fun _ => 4 := by
  rw [aO1_yB, aO2_yB]
  funext k
  norm_num [fitDiff, fitMuT, fitMuNT, st1, Matrix.one_apply]

theorem solve_yB :
    npSolve (fitCov st1.cfg ops1 sc3 (fun i => flattenTrial (X3 i)))
      (fitDiff st1.pinv_ratio_matrix (average_O1 X3 yB) (average_O2 X3 yB)) = some w0B := by
  rw [cov3_eval, diff_yB, npSolve_dim_one _ _ (by norm_num)]
  congr 1
  funext i
  norm_num [w0B]

theorem poolMean_congr {ns p : ℕ} (Xf : Matrix (Fin ns) (Fin p) ℚ)
    (y y' : Fin ns → ℤ) (v : ℤ) (h : ∀ i, y i = v ↔ y' i = v) :
    poolMean Xf y v = poolMean Xf y' v := by
  funext k
  unfold poolMean
  rw [Finset.filter_congr (fun i _ => h i)]

/-- On a supplied gamma (and no reshape error), the float-refined gamma
outcome is exactly the gamma of the exact-rational model. -/
theorem shrinkageGammaFloat_val_of_supplied (p n : ℕ) (X : Mat p n) (g : ℚ)
    (TOpt SOpt : Option (Mat p p)) (block : Bool) (n_channels n_times : ℕ)
    (standardize : Bool) (sc : ScalerResult p n)
    (hdim : ¬((block && standardize) = true ∧ p ≠ n_channels * n_times)) :
    shrinkageGammaFloat p n X (some g) TOpt SOpt block n_channels n_times standardize sc =
      .val ((shrinkage p n X (some g) TOpt SOpt block n_channels n_times standardize sc).2) := by
  unfold shrinkageGammaFloat
  rw [if_neg hdim]
  rfl

/-- On an auto gamma whose denominator is nonzero (and no reshape error),
the float-refined gamma outcome is exactly the gamma of the exact-rational
model: the two models differ only on the degenerate division. -/
theorem shrinkageGammaFloat_val_of_den_ne_zero (p n : ℕ) (X : Mat p n)
    (TOpt SOpt : Option (Mat p p)) (block : Bool) (n_channels n_times : ℕ)
    (standardize : Bool) (sc : ScalerResult p n)
    (hdim : ¬((block && standardize) = true ∧ p ≠ n_channels * n_times))
    (hden : shrinkDen p n X TOpt SOpt standardize sc ≠ 0) :
    shrinkageGammaFloat p n X none TOpt SOpt block n_channels n_times standardize sc =
      .val ((shrinkage p n X none TOpt SOpt block n_channels n_times standardize sc).2) := by
  unfold shrinkageGammaFloat
  rw [if_neg hdim]
  show (if shrinkDen p n X TOpt SOpt standardize sc = 0 then _ else _) = _
  rw [if_neg hden]
  rfl

/-! ## Claim C5: the returned gamma and the unit interval -/

/-- Counterexample to claim C5 as stated: the finite all-zero input
`X = [[0, 0]]` with `n = 2 > 1`, `gamma=None` and nothing supplied (a genuine
standardizer run: constant features get scale 1) drives the auto-gamma
formula of llp.py line 44 to `0.0/0.0 = NaN`; the clamp comparisons of lines
45-50 are both false on NaN, so the call returns gamma `NaN`, which does NOT
lie in `[0, 1]`. -/
theorem shrinkage_auto_gamma_nan_counterexample :
    IsStandardizer (0 : Mat 1 2) scNan ∧
    shrinkageGammaFloat 1 2 0 none none none false 1 2 true scNan = GammaOutcome.nan := by
  constructor
  · intro i
    fin_cases i
    refine ⟨by norm_num [scNan], Or.inr ⟨?_, by norm_num [scNan]⟩, ?_⟩
    · norm_num [featureVar, featureMean, Fin.sum_univ_two]
    · intro j
      fin_cases j <;> norm_num [scNan, featureMean, Fin.sum_univ_two]
  · norm_num [shrinkageGammaFloat, shrinkNum, shrinkDen, shrinkS, shrinkT, scNan,
      featureMean, Fin.sum_univ_two, Fin.sum_univ_one]

/-- Claim C5 (amended): for every call with `n > 1` that returns a numeric
gamma — gamma supplied, or auto gamma with nonzero denominator, or an
infinite quotient from a zero denominator, which the clamp maps to 1 or 0 —
the returned gamma lies in `[0, 1]`, clamped rather than rejected. (The two
remaining paths are the `0.0/0.0 = NaN` auto gamma, returned un-clamped, and
the reshape `ValueError` raised when `block` and `standardize` with
`p ≠ n_channels * n_times`.) -/
theorem shrinkage_numeric_gamma_mem_unit_interval (p n : ℕ) (X : Mat p n)
    (gammaOpt : Option ℚ) (TOpt SOpt : Option (Mat p p)) (block : Bool)
    (n_channels n_times : ℕ) (standardize : Bool) (sc : ScalerResult p n)
    (g : ℚ) (h : 1 < n)
    (hval : shrinkageGammaFloat p n X gammaOpt TOpt SOpt block n_channels n_times
      standardize sc = GammaOutcome.val g) :
    0 ≤ g ∧ g ≤ 1 := by
  unfold shrinkageGammaFloat at hval
  by_cases hdim : (block && standardize) = true ∧ p ≠ n_channels * n_times
  · rw [if_pos hdim] at hval
    exact absurd hval (by simp)
  · rw [if_neg hdim] at hval
    cases gammaOpt with
    | some g0 =>
        have hval' : GammaOutcome.val (clamp01 g0) = GammaOutcome.val g := hval
        simp only [GammaOutcome.val.injEq] at hval'
        rw [← hval']
        exact ⟨clamp01_nonneg _, clamp01_le_one _⟩
    | none =>
        have hval' :
            (if shrinkDen p n X TOpt SOpt standardize sc = 0 then
              if shrinkNum p n X SOpt standardize sc = 0 then GammaOutcome.nan
              else if 0 < shrinkNum p n X SOpt standardize sc then GammaOutcome.val 1
              else GammaOutcome.val 0
            else GammaOutcome.val (clamp01 (shrinkNum p n X SOpt standardize sc /
              shrinkDen p n X TOpt SOpt standardize sc))) = GammaOutcome.val g := hval
        split_ifs at hval' with hden hnum hpos
        · simp only [GammaOutcome.val.injEq] at hval'
          rw [← hval']
          norm_num
        · simp only [GammaOutcome.val.injEq] at hval'
          rw [← hval']
          norm_num
        · simp only [GammaOutcome.val.injEq] at hval'
          rw [← hval']
          exact ⟨clamp01_nonneg _, clamp01_le_one _⟩

/-- Witness for the amended C5: a concrete call with supplied gamma 7 returns
the numeric gamma 1 (clamped), which lies in `[0, 1]`. -/
theorem shrinkage_numeric_gamma_mem_unit_interval_witness :
    (1 : ℕ) < 2 ∧
    shrinkageGammaFloat 1 2 matW (some 7) none none false 1 2 true scW =
      GammaOutcome.val 1 ∧
    (0 ≤ (1 : ℚ) ∧ (1 : ℚ) ≤ 1) := by
  have hval : shrinkageGammaFloat 1 2 matW (some 7) none none false 1 2 true scW =
      GammaOutcome.val 1 := by
    norm_num [shrinkageGammaFloat, clamp01]
  exact ⟨by norm_num, hval,
    shrinkage_numeric_gamma_mem_unit_interval 1 2 matW (some 7) none none false 1 2
      true scW 1 (by norm_num) hval⟩

/-! ## Claim C6: forced-gamma endpoints -/

/-- Counterexample to claim C6 as stated: with standardization enabled (the
estimator's default) and a supplied target `T = [[1]]`, forcing gamma to 1 on
`X = [[0, 4]]` (a valid standardizer run with scale 2) returns `[[4]]`, not
`T/(n-1) = [[1]]`: llp.py line 53 rescales the convex combination by the
per-feature scales, so the output is not `T/(n-1)` exactly. -/
theorem shrinkage_gamma_one_standardized_counterexample :
    IsStandardizer matW scC6 ∧
    (shrinkage 1 2 matW (some 1) (some TC6) (some SC6) false 1 2 true scC6).1 0 0 = 4 ∧
    TC6 0 0 / ((2 : ℚ) - 1) = 1 ∧
    (shrinkage 1 2 matW (some 1) (some TC6) (some SC6) false 1 2 true scC6).1 ≠
      fun i j => TC6 i j / ((2 : ℚ) - 1) := by
  refine ⟨?_, ?_, ?_, ?_⟩
  · intro i
    fin_cases i
    refine ⟨by norm_num [scC6], Or.inl ?_, ?_⟩
    · norm_num [scC6, featureVar, featureMean, matW, Fin.sum_univ_two]
    · intro j
      fin_cases j <;> norm_num [scC6, featureMean, matW, Fin.sum_univ_two]
  · norm_num [shrinkage, clamp01, scC6, TC6, SC6]
  · norm_num [TC6]
  · intro hEq
    have h00 := congrFun (congrFun hEq 0) 0
    rw [show (shrinkage 1 2 matW (some 1) (some TC6) (some SC6) false 1 2 true scC6).1 0 0 = 4
        by norm_num [shrinkage, clamp01, scC6, TC6, SC6]] at h00
    norm_num [TC6] at h00

/-- Claim C6 (amended): with standardization disabled, forcing gamma to 1
returns exactly `T/(n-1)` (independent of the supplied scatter `S` and of the
data `X`), and forcing gamma to 0 returns exactly `S/(n-1)` (independent of
the target `T`). -/
theorem shrinkage_forced_gamma_endpoints (p n : ℕ) (X : Mat p n)
    (S T : Mat p p) (block : Bool) (n_channels n_times : ℕ)
    (sc : ScalerResult p n) (h : 1 < n) :
    (shrinkage p n X (some 1) (some T) (some S) block n_channels n_times false sc).1 =
      (fun i j => T i j / ((n : ℚ) - 1)) ∧
    (shrinkage p n X (some 0) (some T) (some S) block n_channels n_times false sc).1 =
      (fun i j => S i j / ((n : ℚ) - 1)) := by
  constructor <;> (funext i j; simp only [shrinkage, clamp01, Option.getD_some]; norm_num)

/-- Witness for the amended C6 at a concrete call: two samples,
`T = [[10]]`, `S = [[6]]`. -/
theorem shrinkage_forced_gamma_endpoints_witness :
    (1 : ℕ) < 2 ∧
    (shrinkage 1 2 matW (some 1) (some (Matrix.of ![![10]])) (some (Matrix.of ![![6]]))
      false 1 2 false scW).1 0 0 = Matrix.of ![![10]] 0 0 / ((2 : ℚ) - 1) ∧
    (shrinkage 1 2 matW (some 0) (some (Matrix.of ![![10]])) (some (Matrix.of ![![6]]))
      false 1 2 false scW).1 0 0 = Matrix.of ![![6]] 0 0 / ((2 : ℚ) - 1) :=
  ⟨by norm_num,
    congrFun (congrFun (shrinkage_forced_gamma_endpoints 1 2 matW (Matrix.of ![![6]])
      (Matrix.of ![![10]]) false 1 2 scW (by norm_num)).1 0) 0,
    congrFun (congrFun (shrinkage_forced_gamma_endpoints 1 2 matW (Matrix.of ![![6]])
      (Matrix.of ![![10]]) false 1 2 scW (by norm_num)).2 0) 0⟩

/-! ## Claim C2: block-homogeneous rescaling of the scale vector -/

/-- Claim C2 evaluated on the code at the failing input `n_channels = 2`,
`n_times = 2`, `sc.scale_ = [1, 3, 5, 7]` (channel-major: flat index
`c * n_times + t`). The per-channel time averages are `[2, 6]`, but
`np.tile` (llp.py line 38) lays the new scale out as `[2, 6, 2, 6]`, so flat
position 1 — channel 0, time 1 — receives 6, not channel 0's average 2: after
the step the time positions of one channel do NOT share that channel's
time-averaged scale. Consequently the shrinkage output rescaled at entry
(1, 1) is `6 * 1 * 6 = 36` rather than the claimed `2 * 1 * 2 = 4`. -/
theorem tile_breaks_channel_homogeneity :
    blockVars (extendScale scC2.scale) 2 0 = 2 ∧
    blockVars (extendScale scC2.scale) 2 1 = 6 ∧
    tiledScale (extendScale scC2.scale) 2 2 1 = 6 ∧
    tiledScale (extendScale scC2.scale) 2 2 1 ≠ blockVars (extendScale scC2.scale) 2 0 ∧
    (shrinkage 4 2 0 (some 1) (some 1) (some 0) true 2 2 true scC2).1 1 1 = 36 := by
  refine ⟨?_, ?_, ?_, ?_, ?_⟩
  · norm_num [blockVars, extendScale, scC2, Finset.sum_range_succ]
  · norm_num [blockVars, extendScale, scC2, Finset.sum_range_succ]
  · norm_num [tiledScale, blockVars, extendScale, scC2, Finset.sum_range_succ]
  · norm_num [tiledScale, blockVars, extendScale, scC2, Finset.sum_range_succ]
  · norm_num [shrinkage, clamp01, tiledScale, blockVars, extendScale, scC2,
      Finset.sum_range_succ, Matrix.one_apply]

/-! ## Claims C1 and C4: construction with an explicit ratio matrix -/

/-- Claim C1 evaluated on the code at the failing input: constructing with
`ratio_matrix` equal to the 2 × 2 identity — an invertible matrix — does NOT
succeed: `__init__` assigns `self.ratio_matrix` only in the
`ratio_matrix is None` branch (llp.py lines 86-87), so line 88 reads a
never-assigned attribute and construction raises `AttributeError`; `fit`
never unmixes with the inverse of the passed matrix. -/
theorem init_explicit_identity_ratio_errors (p : ℕ) (cfg : LLPConfig) :
    llpInit p (some 1) cfg = .error PyError.attrError := rfl

/-- Claim C4: constructing with the singular ratio matrix `[[1, 1], [1, 1]]`
fails at construction time, before any data reaches `fit` or `predict`. (In
the current code the raised exception is the `AttributeError` of llp.py line
88, which rejects every explicitly passed matrix, singular or not.) -/
theorem init_singular_ratio_fails (p : ℕ) (cfg : LLPConfig) :
    llpInit p (some (Matrix.of ![![1, 1], ![1, 1]])) cfg = .error PyError.attrError := rfl

/-! ## Claim C7: predict before fit -/

/-- Claim C7: `predict` on an Unfitted classifier — the state produced by
construction, on which `fit` has never been called — raises (the `TypeError`
of `np.dot(X, None) + None`) rather than returning any default or zero score
vector. -/
theorem predict_unfitted_raises (nc nt ns : ℕ) (cfg : LLPConfig)
    (X : Fin ns → Matrix (Fin nc) (Fin nt) ℚ) :
    llpInit (nc * nt) none cfg = .ok (freshState (nc * nt) cfg) ∧
    predict (freshState (nc * nt) cfg) X = .error PyError.typeError :=
  ⟨llpInit_none_ok _ _, rfl⟩

/-! ## Claim C9: all-or-nothing model state -/

/-- Claim C9: at every observable point of a classifier's lifetime — any
state reachable by a successful construction followed by successful `fit`
calls, failing calls raising without producing a state — the four model
fields `w`, `b`, `mu_T`, `mu_NT` are all present or all absent. -/
theorem reachable_model_consistent (nc nt : ℕ) (st : LLPState (nc * nt))
    (h : Reachable nc nt st) : ModelConsistent st := by
  induction h with
  | of_init rm cfg st heq =>
      right
      cases rm with
      | some R => simp [llpInit] at heq
      | none =>
          rw [llpInit] at heq
          split at heq
          · exact absurd heq (by simp)
          · cases heq
            exact ⟨rfl, rfl, rfl, rfl⟩
  | of_fit ns st st' ops sc X y hr heq ih =>
      left
      rw [fitStep] at heq
      split at heq
      · exact absurd heq (by simp)
      · cases heq
        exact ⟨rfl, rfl, rfl, rfl⟩

/-- Witness for C9: the freshly constructed classifier is reachable and its
model fields are all absent. -/
theorem reachable_model_consistent_witness :
    llpInit (1 * 1) none {} = .ok (freshState (1 * 1) {}) ∧
    ModelConsistent (freshState (1 * 1) {}) :=
  ⟨llpInit_none_ok (1 * 1) {},
    reachable_model_consistent 1 1 (freshState (1 * 1) {})
      (Reachable.of_init none {} _ (llpInit_none_ok (1 * 1) {}))⟩

/-! ## Claim C10: fit always calls shrinkage with its defaults -/

/-- Claim C10: for every configuration, `fit` computes the pooled covariance
by `shrinkage(X.T)` with every keyword left at its default — in particular
`standardize=True` and `block=False` — and with `block=False` the
channel/time block parameters are irrelevant: no classifier option can enable
block-homogeneous rescaling inside `fit`. -/
theorem fit_covariance_shrinkage_defaults (p ns : ℕ) (cfg : LLPConfig)
    (ops : STMOps p) (sc : ScalerResult p ns) (Xf : Matrix (Fin ns) (Fin p) ℚ) :
    fitCov cfg ops sc Xf =
      applySTM cfg ops (shrinkage p ns Xfᵀ none none none false 31 5 true sc).1 ∧
    ∀ n_channels n_times : ℕ,
      shrinkage p ns Xfᵀ none none none false n_channels n_times true sc =
        shrinkage p ns Xfᵀ none none none false 31 5 true sc :=
  ⟨rfl, fun _ _ => rfl⟩

/-! ## Claim C3: canonical normalization of the fitted model -/

/-- Claim C3: after every successful `fit` call — the linear solve returned
`w0` and `w0 · (mu_T - mu_NT)` is nonzero — the stored model fields are
exactly the normalized quantities of llp.py lines 149-160, and they satisfy
`w · (mu_T - mu_NT) = 2`, `b = -(w · (0.5 * (mu_T + mu_NT)))`, and
equivalently `w · mu_T + b = 1` and `w · mu_NT + b = -1`. -/
theorem fit_canonical_normalization
    (nc nt ns : ℕ) (st st' : LLPState (nc * nt)) (ops : STMOps (nc * nt))
    (sc : ScalerResult (nc * nt) ns) (X : Fin ns → Matrix (Fin nc) (Fin nt) ℚ)
    (y : Fin ns → ℤ) (w0 : Vec (nc * nt))
    (hsolve : npSolve (fitCov st.cfg ops sc (fun i => flattenTrial (X i)))
        (fitDiff st.pinv_ratio_matrix (average_O1 X y) (average_O2 X y)) = some w0)
    (hnz : w0 ⬝ᵥ fitDiff st.pinv_ratio_matrix (average_O1 X y) (average_O2 X y) ≠ 0)
    (hfit : fitStep st ops sc X y = .ok st') :
    st'.w = some (fitW st.pinv_ratio_matrix (average_O1 X y) (average_O2 X y) w0) ∧
    st'.b = some (fitB st.pinv_ratio_matrix (average_O1 X y) (average_O2 X y) w0) ∧
    st'.mu_T = some (fitMuT st.pinv_ratio_matrix (average_O1 X y) (average_O2 X y)) ∧
    st'.mu_NT = some (fitMuNT st.pinv_ratio_matrix (average_O1 X y) (average_O2 X y)) ∧
    fitW st.pinv_ratio_matrix (average_O1 X y) (average_O2 X y) w0 ⬝ᵥ
        fitDiff st.pinv_ratio_matrix (average_O1 X y) (average_O2 X y) = 2 ∧
    fitB st.pinv_ratio_matrix (average_O1 X y) (average_O2 X y) w0 =
      -(fitW st.pinv_ratio_matrix (average_O1 X y) (average_O2 X y) w0 ⬝ᵥ
          fitMean st.pinv_ratio_matrix (average_O1 X y) (average_O2 X y)) ∧
    fitW st.pinv_ratio_matrix (average_O1 X y) (average_O2 X y) w0 ⬝ᵥ
        fitMuT st.pinv_ratio_matrix (average_O1 X y) (average_O2 X y) +
      fitB st.pinv_ratio_matrix (average_O1 X y) (average_O2 X y) w0 = 1 ∧
    fitW st.pinv_ratio_matrix (average_O1 X y) (average_O2 X y) w0 ⬝ᵥ
        fitMuNT st.pinv_ratio_matrix (average_O1 X y) (average_O2 X y) +
      fitB st.pinv_ratio_matrix (average_O1 X y) (average_O2 X y) w0 = -1 := by
  rw [fitStep] at hfit
  rw [hsolve] at hfit
  simp only at hfit
  cases hfit
  have h2 := dot_fitW_diff st.pinv_ratio_matrix (average_O1 X y) (average_O2 X y) w0 hnz
  refine ⟨rfl, rfl, rfl, rfl, h2, rfl, ?_, ?_⟩
  · have hmid := dot_shift_to_diff
      (fitW st.pinv_ratio_matrix (average_O1 X y) (average_O2 X y) w0)
      (fitMuT st.pinv_ratio_matrix (average_O1 X y) (average_O2 X y))
      (fitMuNT st.pinv_ratio_matrix (average_O1 X y) (average_O2 X y))
    calc fitW st.pinv_ratio_matrix (average_O1 X y) (average_O2 X y) w0 ⬝ᵥ
          fitMuT st.pinv_ratio_matrix (average_O1 X y) (average_O2 X y) +
        fitB st.pinv_ratio_matrix (average_O1 X y) (average_O2 X y) w0
        = (1 / 2) * (fitW st.pinv_ratio_matrix (average_O1 X y) (average_O2 X y) w0 ⬝ᵥ
            fitDiff st.pinv_ratio_matrix (average_O1 X y) (average_O2 X y)) := hmid
      _ = 1 := by rw [h2]; norm_num
  · have hmid := dot_shift_to_diff_snd
      (fitW st.pinv_ratio_matrix (average_O1 X y) (average_O2 X y) w0)
      (fitMuT st.pinv_ratio_matrix (average_O1 X y) (average_O2 X y))
      (fitMuNT st.pinv_ratio_matrix (average_O1 X y) (average_O2 X y))
    calc fitW st.pinv_ratio_matrix (average_O1 X y) (average_O2 X y) w0 ⬝ᵥ
          fitMuNT st.pinv_ratio_matrix (average_O1 X y) (average_O2 X y) +
        fitB st.pinv_ratio_matrix (average_O1 X y) (average_O2 X y) w0
        = -((1 / 2) * (fitW st.pinv_ratio_matrix (average_O1 X y) (average_O2 X y) w0 ⬝ᵥ
            fitDiff st.pinv_ratio_matrix (average_O1 X y) (average_O2 X y))) := hmid
      _ = -1 := by rw [h2]; norm_num

/-- Witness for C3: the concrete fit of `X3` with labels `yA` from `st1`
succeeds (solve output `w0A`, nonzero projection), and the stored model
satisfies all the normalization identities. -/
theorem fit_canonical_normalization_witness :
    npSolve (fitCov st1.cfg ops1 sc3 (fun i => flattenTrial (X3 i)))
      (fitDiff st1.pinv_ratio_matrix (average_O1 X3 yA) (average_O2 X3 yA)) = some w0A ∧
    w0A ⬝ᵥ fitDiff st1.pinv_ratio_matrix (average_O1 X3 yA) (average_O2 X3 yA) ≠ 0 ∧
    fitStep st1 ops1 sc3 X3 yA = .ok stA ∧
    (stA.w = some (fitW st1.pinv_ratio_matrix (average_O1 X3 yA) (average_O2 X3 yA) w0A) ∧
    stA.b = some (fitB st1.pinv_ratio_matrix (average_O1 X3 yA) (average_O2 X3 yA) w0A) ∧
    stA.mu_T = some (fitMuT st1.pinv_ratio_matrix (average_O1 X3 yA) (average_O2 X3 yA)) ∧
    stA.mu_NT = some (fitMuNT st1.pinv_ratio_matrix (average_O1 X3 yA) (average_O2 X3 yA)) ∧
    fitW st1.pinv_ratio_matrix (average_O1 X3 yA) (average_O2 X3 yA) w0A ⬝ᵥ
        fitDiff st1.pinv_ratio_matrix (average_O1 X3 yA) (average_O2 X3 yA) = 2 ∧
    fitB st1.pinv_ratio_matrix (average_O1 X3 yA) (average_O2 X3 yA) w0A =
      -(fitW st1.pinv_ratio_matrix (average_O1 X3 yA) (average_O2 X3 yA) w0A ⬝ᵥ
          fitMean st1.pinv_ratio_matrix (average_O1 X3 yA) (average_O2 X3 yA)) ∧
    fitW st1.pinv_ratio_matrix (average_O1 X3 yA) (average_O2 X3 yA) w0A ⬝ᵥ
        fitMuT st1.pinv_ratio_matrix (average_O1 X3 yA) (average_O2 X3 yA) +
      fitB st1.pinv_ratio_matrix (average_O1 X3 yA) (average_O2 X3 yA) w0A = 1 ∧
    fitW st1.pinv_ratio_matrix (average_O1 X3 yA) (average_O2 X3 yA) w0A ⬝ᵥ
        fitMuNT st1.pinv_ratio_matrix (average_O1 X3 yA) (average_O2 X3 yA) +
      fitB st1.pinv_ratio_matrix (average_O1 X3 yA) (average_O2 X3 yA) w0A = -1) :=
  ⟨solve_yA, nz_yA, fit_yA,
    fit_canonical_normalization 1 1 3 st1 stA ops1 sc3 X3 yA w0A solve_yA nz_yA fit_yA⟩

/-! ## Claim C8: labels outside the set 1, 2 -/

/-- Counterexample to claim C8 as stated: calling `fit` with the label vector
`[1, 2, 3]` — whose third entry is neither 1 nor 2 — is NOT a signaled
failure: `fit` (llp.py lines 113-118) performs no label validation, silently
drops the offending trial from both class-mean pools (while it still enters
the pooled covariance of line 121), and completes successfully. -/
theorem fit_accepts_label_outside_pools :
    yB 2 = 3 ∧ (fitStep st1 ops1 sc3 X3 yB).toOption.isSome = true := by
  refine ⟨by norm_num [yB], ?_⟩
  simp only [fitStep]
  rw [solve_yB]
  rfl

/-- Claim C8 (amended): `fit` performs no label validation. A trial whose
label is neither 1 nor 2 is silently ignored by the class-mean pools (any
two label vectors agreeing on which trials are labeled 1 and which are
labeled 2 produce identical fit results, whatever the other labels are),
while every trial still enters the pooled covariance; no error is raised on
account of such labels. -/
theorem fit_ignores_labels_outside_pools (nc nt ns : ℕ) (st : LLPState (nc * nt))
    (ops : STMOps (nc * nt)) (sc : ScalerResult (nc * nt) ns)
    (X : Fin ns → Matrix (Fin nc) (Fin nt) ℚ) (y y' : Fin ns → ℤ)
    (h : ∀ i, (y i = 1 ↔ y' i = 1) ∧ (y i = 2 ↔ y' i = 2)) :
    fitStep st ops sc X y = fitStep st ops sc X y' := by
  have e1 : average_O1 X y = average_O1 X y' :=
    poolMean_congr _ y y' 1 (fun i => (h i).1)
  have e2 : average_O2 X y = average_O2 X y' :=
    poolMean_congr _ y y' 2 (fun i => (h i).2)
  simp only [fitStep]
  rw [e1, e2]

/-- Witness for the amended C8: replacing the out-of-range label 3 by the
out-of-range label 5 leaves the fit result unchanged. -/
theorem fit_ignores_labels_outside_pools_witness :
    fitStep st1 ops1 sc3 X3 yB = fitStep st1 ops1 sc3 X3 yB' :=
  fit_ignores_labels_outside_pools 1 1 3 st1 ops1 sc3 X3 yB yB' (by decide)

end ToeplitzLLP
